import Mathlib

/-!
Verification of the Run Ranking & Comparison Model of SortVision
(`src/components/panels/metrics/RankingCard.jsx`), shallowly embedded.
Times are modelled as rationals; `Math.round` is modelled as `jsRound`
(round half toward positive infinity, JavaScript semantics).
-/

namespace SortVision

/-- One algorithm run's measured cost (`metrics` prop of `RankingCard`,
together with the algorithm identifier `algo`). -/
structure MetricsRecord where
  algorithmId : String
  swaps : Nat
  comparisons : Nat
  timeMs : ℚ
deriving DecidableEq, Repr

/-- Direction of a relative-performance comparison: the candidate is
faster or slower than the baseline. -/
inductive Direction where
  | faster
  | slower
deriving DecidableEq, Repr

/-- Result rendered by the comparison block of `RankingCard`. -/
structure ComparisonResult where
  direction : Direction
  percent : ℤ
deriving DecidableEq, Repr

/-- JavaScript `Math.round`: round half toward positive infinity. -/
def jsRound (x : ℚ) : ℤ := ⌊x + 1 / 2⌋

/-- Rounding half away from zero, the rounding mode named by the spec. -/
def roundHalfAwayFromZero (x : ℚ) : ℤ :=
  if 0 ≤ x then ⌊x + 1 / 2⌋ else -⌊-x + 1 / 2⌋

/-- The comparison block of `RankingCard` (lines 175-204): rendered only when
`algo !== algorithm && currentAlgoMetrics && algoMetrics.time > 0`; then the
branch on `parseFloat(algoMetrics.time) < parseFloat(currentAlgoMetrics.time)`
chooses `faster` with `Math.round((r/b - 1) * -100)` or `slower` with
`Math.round((r/b - 1) * 100)`. -/
def compare (r : MetricsRecord) (baseline : Option MetricsRecord) :
    Option ComparisonResult :=
  match baseline with
  | none => none
  | some b =>
    if r.algorithmId ≠ b.algorithmId ∧ 0 < r.timeMs then
      if r.timeMs < b.timeMs then
        some ⟨Direction.faster, jsRound ((r.timeMs / b.timeMs - 1) * (-100))⟩
      else
        some ⟨Direction.slower, jsRound ((r.timeMs / b.timeMs - 1) * 100)⟩
    else
      none

/-- Hover part of a color scheme (the `hover` field in `getColorScheme`). -/
structure HoverScheme where
  bg : String
  text : String
deriving DecidableEq, Repr

/-- One color scheme returned by `getColorScheme`. -/
structure ColorScheme where
  bg : String
  accent : String
  border : String
  text : String
  hover : HoverScheme
deriving DecidableEq, Repr

/-- Scheme for the `quick`/`merge`/`heap` cases. -/
def greenScheme : ColorScheme :=
  { bg := "from-green-500/5 via-green-500/10 to-green-500/5"
    accent := "from-green-500/10 to-emerald-500/10"
    border := "border-green-500"
    text := "text-green-500"
    hover := { bg := "from-green-500/20 via-green-500/30 to-green-500/20"
               text := "text-green-400" } }

/-- Scheme for the `radix`/`bucket` cases. -/
def cyanScheme : ColorScheme :=
  { bg := "from-cyan-500/5 via-cyan-500/10 to-cyan-500/5"
    accent := "from-cyan-500/10 to-blue-500/10"
    border := "border-cyan-500"
    text := "text-cyan-500"
    hover := { bg := "from-cyan-500/20 via-cyan-500/30 to-cyan-500/20"
               text := "text-cyan-400" } }

/-- Scheme for the `insertion`/`selection`/`bubble` cases. -/
def redScheme : ColorScheme :=
  { bg := "from-red-500/5 via-red-500/10 to-red-500/5"
    accent := "from-red-500/10 to-orange-500/10"
    border := "border-red-500"
    text := "text-red-500"
    hover := { bg := "from-red-500/20 via-red-500/30 to-red-500/20"
               text := "text-red-400" } }

/-- Scheme for the `default` case of the switch. -/
def slateScheme : ColorScheme :=
  { bg := "from-slate-500/5 via-slate-500/10 to-slate-500/5"
    accent := "from-slate-500/10 to-slate-400/10"
    border := "border-slate-500"
    text := "text-slate-500"
    hover := { bg := "from-slate-500/20 via-slate-500/30 to-slate-500/20"
               text := "text-slate-400" } }

/-- `getColorScheme` of `RankingCard` (lines 13-65): a switch on the
algorithm identifier with fall-through case groups and a default. -/
def getColorScheme (algo : String) : ColorScheme :=
  if algo = "quick" ∨ algo = "merge" ∨ algo = "heap" then greenScheme
  else if algo = "radix" ∨ algo = "bucket" then cyanScheme
  else if algo = "insertion" ∨ algo = "selection" ∨ algo = "bubble" then redScheme
  else slateScheme

/-- The performance-bar width percentage of `RankingCard` (line 133):
`Math.max(5, 100 - (rank - 1) * 15)`. -/
def perfBarWidth (rnk : ℤ) : ℤ := max 5 (100 - (rnk - 1) * 15)

/-- A MetricsRecord annotated with its 1-based rank among a peer set. -/
structure RankedEntry where
  record : MetricsRecord
  rank : Nat
deriving DecidableEq, Repr

/-- Assign consecutive ranks starting from `n` to a list of records. -/
def assignRanks : Nat → List MetricsRecord → List RankedEntry
  | _, [] => []
  | n, r :: rs => ⟨r, n⟩ :: assignRanks (n + 1) rs

/-- Ordering of records by elapsed time, used by the Ranking Engine. -/
def timeLE (a b : MetricsRecord) : Prop := a.timeMs ≤ b.timeMs

instance : DecidableRel timeLE :=
  fun a b => inferInstanceAs (Decidable (a.timeMs ≤ b.timeMs))

instance : IsTotal MetricsRecord timeLE :=
  ⟨fun a b => le_total a.timeMs b.timeMs⟩

instance : IsTrans MetricsRecord timeLE :=
  ⟨fun _ _ _ hab hbc => le_trans hab hbc⟩

/-- Modelled from the spec: the Ranking Engine `rank` is not among the
provided sources (`RankingCard` receives `rank` as a prop computed by a
caller outside the excerpt). Per the spec: only records with `timeMs > 0`
are eligible; sort them ascending by `timeMs` with a stable sort (ties keep
input order); assign 1-based contiguous ranks. The input mapping is taken
in its iteration order as a list. -/
def rank (records : List MetricsRecord) : List RankedEntry :=
  assignRanks 1
    (List.insertionSort timeLE (records.filter (fun r => decide (0 < r.timeMs))))

/-! ### Helper lemmas -/

theorem jsRound_eq_roundHalfAwayFromZero {x : ℚ} (hx : 0 ≤ x) :
    jsRound x = roundHalfAwayFromZero x := by
  simp [jsRound, roundHalfAwayFromZero, hx]

theorem jsRound_nonneg {x : ℚ} (hx : 0 ≤ x) : 0 ≤ jsRound x :=
  Int.le_floor.mpr (by push_cast; linarith)

theorem compare_some {r b : MetricsRecord}
    (hid : r.algorithmId ≠ b.algorithmId) (hr : 0 < r.timeMs) :
    compare r (some b) =
      if r.timeMs < b.timeMs then
        some ⟨Direction.faster, jsRound ((r.timeMs / b.timeMs - 1) * (-100))⟩
      else
        some ⟨Direction.slower, jsRound ((r.timeMs / b.timeMs - 1) * 100)⟩ := by
  simp [compare, hid, hr]

theorem faster_arg_nonneg {r b : ℚ} (hb : 0 < b) (hlt : r < b) :
    (0 : ℚ) ≤ (r / b - 1) * (-100) := by
  have h1 : r / b < 1 := (div_lt_one hb).mpr hlt
  nlinarith

theorem slower_arg_nonneg {r b : ℚ} (hb : 0 < b) (hle : b ≤ r) :
    (0 : ℚ) ≤ (r / b - 1) * 100 := by
  have h1 : 1 ≤ r / b := (one_le_div hb).mpr hle
  nlinarith

theorem assignRanks_map_record (n : Nat) (l : List MetricsRecord) :
    (assignRanks n l).map RankedEntry.record = l := by
  induction l generalizing n with
  | nil => rfl
  | cons x xs ih => simp [assignRanks, ih]

theorem assignRanks_map_rank (n : Nat) (l : List MetricsRecord) :
    (assignRanks n l).map RankedEntry.rank = List.range' n l.length := by
  induction l generalizing n with
  | nil => rfl
  | cons x xs ih => simp [assignRanks, ih, List.range'_succ]

theorem assignRanks_length (n : Nat) (l : List MetricsRecord) :
    (assignRanks n l).length = l.length := by
  simpa using congrArg List.length (assignRanks_map_record n l)

/-! ### Claims -/

/-- C1: the spec demands that a comparison with an unmeasured baseline
(`b.timeMs = 0`) never be produced. The code only checks that the baseline
record is present and that the candidate time is positive, so at this
failing input it still renders a comparison (the slower branch). -/
theorem c1_unmeasured_baseline_still_compared :
    (compare ⟨"merge", 0, 0, 100⟩ (some ⟨"quick", 0, 0, 0⟩)).isSome = true := by
  decide

/-- C2: for eligible records with distinct identifiers, a strictly smaller
candidate time yields `faster` with percent `round(-(r/b - 1) * 100)` and a
greater-or-equal candidate time yields `slower` with percent
`round((r/b - 1) * 100)`, where `round` is half-away-from-zero. -/
theorem c2_compare_directions (r b : MetricsRecord)
    (hid : r.algorithmId ≠ b.algorithmId) (hr : 0 < r.timeMs) (hb : 0 < b.timeMs) :
    (r.timeMs < b.timeMs →
      compare r (some b) =
        some ⟨Direction.faster,
          roundHalfAwayFromZero (-(r.timeMs / b.timeMs - 1) * 100)⟩) ∧
    (b.timeMs ≤ r.timeMs →
      compare r (some b) =
        some ⟨Direction.slower,
          roundHalfAwayFromZero ((r.timeMs / b.timeMs - 1) * 100)⟩) := by
  constructor
  · intro hlt
    rw [compare_some hid hr, if_pos hlt,
      jsRound_eq_roundHalfAwayFromZero (faster_arg_nonneg hb hlt)]
    simp only [Option.some.injEq, ComparisonResult.mk.injEq, true_and]
    congr 1
    ring
  · intro hge
    rw [compare_some hid hr, if_neg (not_lt.mpr hge),
      jsRound_eq_roundHalfAwayFromZero (slower_arg_nonneg hb hge)]

/-- C2 witness at a concrete slower pair. -/
theorem c2_witness :
    compare ⟨"merge", 0, 0, 150⟩ (some ⟨"quick", 0, 0, 100⟩) =
      some ⟨Direction.slower,
        roundHalfAwayFromZero (((150 : ℚ) / 100 - 1) * 100)⟩ :=
  (c2_compare_directions ⟨"merge", 0, 0, 150⟩ ⟨"quick", 0, 0, 100⟩
    (by decide) (by norm_num) (by norm_num)).2 (by norm_num)

/-- C3: the spec's worked example: candidate `merge` at 140ms against
baseline `quick` at 120ms gives `slower` with percent 17. -/
theorem c3_example_slower_17 :
    compare ⟨"merge", 0, 0, 140⟩ (some ⟨"quick", 0, 0, 120⟩) =
      some ⟨Direction.slower, 17⟩ := by
  simp only [compare]
  rw [if_pos (by decide), if_neg (by decide)]
  simp only [Option.some.injEq, ComparisonResult.mk.injEq]
  norm_num [jsRound]

/-- C4: when candidate and baseline carry the same algorithm identifier,
no comparison is produced, even with positive times. -/
theorem c4_no_self_comparison (r b : MetricsRecord)
    (h : r.algorithmId = b.algorithmId) : compare r (some b) = none := by
  simp [compare, h]

/-- C4 witness: self-comparison of `quick` at 120ms produces nothing. -/
theorem c4_witness :
    compare ⟨"quick", 0, 0, 120⟩ (some ⟨"quick", 0, 0, 120⟩) = none :=
  c4_no_self_comparison ⟨"quick", 0, 0, 120⟩ ⟨"quick", 0, 0, 120⟩ rfl

/-- C5: for positive times, the emitted percent is the half-away-from-zero
rounding of the signed relative difference in percent. -/
theorem c5_percent_rounded_half_away (r b : MetricsRecord)
    (hr : 0 < r.timeMs) (hb : 0 < b.timeMs)
    (res : ComparisonResult) (hres : compare r (some b) = some res) :
    res.percent =
      roundHalfAwayFromZero
        ((if r.timeMs < b.timeMs then -1 else 1) *
          ((r.timeMs / b.timeMs - 1) * 100)) := by
  by_cases hid : r.algorithmId = b.algorithmId
  · simp [compare, hid] at hres
  · rw [compare_some hid hr] at hres
    by_cases hlt : r.timeMs < b.timeMs
    · rw [if_pos hlt] at hres
      injection hres with h2
      subst h2
      rw [if_pos hlt,
        jsRound_eq_roundHalfAwayFromZero (faster_arg_nonneg hb hlt)]
      ring_nf
    · rw [if_neg hlt] at hres
      injection hres with h2
      subst h2
      rw [if_neg hlt,
        jsRound_eq_roundHalfAwayFromZero (slower_arg_nonneg hb (not_lt.mp hlt))]
      ring_nf

/-- C5 witness at a concrete faster pair (90ms against 120ms is 25% faster). -/
theorem c5_witness :
    (ComparisonResult.mk Direction.faster 25).percent =
      roundHalfAwayFromZero
        ((if (90 : ℚ) < 120 then -1 else 1) * (((90 : ℚ) / 120 - 1) * 100)) :=
  c5_percent_rounded_half_away ⟨"heap", 0, 0, 90⟩ ⟨"quick", 0, 0, 120⟩
    (by norm_num) (by norm_num) ⟨Direction.faster, 25⟩
    (by
      simp only [compare]
      rw [if_pos (by decide), if_pos (by decide)]
      simp only [Option.some.injEq, ComparisonResult.mk.injEq]
      norm_num [jsRound])

/-- C6 counterexample: equal positive times on distinct algorithms produce
a comparison whose percent is 0, which is not a positive number. -/
theorem c6_zero_percent_counterexample :
    compare ⟨"merge", 0, 0, 100⟩ (some ⟨"quick", 0, 0, 100⟩) =
      some ⟨Direction.slower, 0⟩ := by
  simp only [compare]
  rw [if_pos (by decide), if_neg (by decide)]
  simp only [Option.some.injEq, ComparisonResult.mk.injEq]
  norm_num [jsRound]

/-- C6 amended: whenever a comparison is produced against a baseline with
positive time, the emitted percent is nonnegative (it can be 0 when the
rounded relative difference vanishes, e.g. for equal times). -/
theorem c6_percent_nonneg (r b : MetricsRecord) (hb : 0 < b.timeMs)
    (res : ComparisonResult) (hres : compare r (some b) = some res) :
    0 ≤ res.percent := by
  by_cases hid : r.algorithmId = b.algorithmId
  · simp [compare, hid] at hres
  · by_cases hr : 0 < r.timeMs
    · rw [compare_some hid hr] at hres
      by_cases hlt : r.timeMs < b.timeMs
      · rw [if_pos hlt] at hres
        injection hres with h2
        subst h2
        exact jsRound_nonneg (faster_arg_nonneg hb hlt)
      · rw [if_neg hlt] at hres
        injection hres with h2
        subst h2
        exact jsRound_nonneg (slower_arg_nonneg hb (not_lt.mp hlt))
    · simp [compare, hr] at hres

/-- C6 witness: 150ms against 100ms yields percent 50, and 0 ≤ 50. -/
theorem c6_witness : (0 : ℤ) ≤ (ComparisonResult.mk Direction.slower 50).percent :=
  c6_percent_nonneg ⟨"merge", 0, 0, 150⟩ ⟨"quick", 0, 0, 100⟩ (by norm_num)
    ⟨Direction.slower, 50⟩
    (by
      simp only [compare]
      rw [if_pos (by decide), if_neg (by decide)]
      simp only [Option.some.injEq, ComparisonResult.mk.injEq]
      norm_num [jsRound])

/-- C7: `rank` produces a sequence sorted ascending by time, that is a
permutation of exactly the eligible records (`timeMs > 0`), has the same
length as the eligible records, and carries the contiguous ranks `1..N`. -/
theorem c7_rank_contract (records : List MetricsRecord) :
    ((rank records).map RankedEntry.record).Pairwise timeLE ∧
    ((rank records).map RankedEntry.record).Perm
      (records.filter (fun r => decide (0 < r.timeMs))) ∧
    (rank records).length =
      (records.filter (fun r => decide (0 < r.timeMs))).length ∧
    (rank records).map RankedEntry.rank = List.range' 1 ((rank records).length) := by
  refine ⟨?_, ?_, ?_, ?_⟩
  · rw [rank, assignRanks_map_record]
    exact List.sorted_insertionSort timeLE _
  · rw [rank, assignRanks_map_record]
    exact List.perm_insertionSort timeLE _
  · rw [rank, assignRanks_length, List.length_insertionSort]
  · rw [rank, assignRanks_map_rank, assignRanks_length, List.length_insertionSort]

/-- C8: with no baseline record at all, no comparison is produced for any
candidate. -/
theorem c8_absent_baseline (r : MetricsRecord) : compare r none = none := rfl

/-- C9: the color-scheme classification is total: quick/merge/heap map to
the green scheme, radix/bucket to the cyan scheme,
insertion/selection/bubble to the red scheme, every other identifier to the
slate default, and every identifier gets one of the four schemes. -/
theorem c9_color_scheme_total :
    getColorScheme "quick" = greenScheme ∧
    getColorScheme "merge" = greenScheme ∧
    getColorScheme "heap" = greenScheme ∧
    getColorScheme "radix" = cyanScheme ∧
    getColorScheme "bucket" = cyanScheme ∧
    getColorScheme "insertion" = redScheme ∧
    getColorScheme "selection" = redScheme ∧
    getColorScheme "bubble" = redScheme ∧
    (∀ a : String,
      a ∉ (["quick", "merge", "heap", "radix", "bucket",
            "insertion", "selection", "bubble"] : List String) →
      getColorScheme a = slateScheme) ∧
    (∀ a : String,
      getColorScheme a = greenScheme ∨ getColorScheme a = cyanScheme ∨
      getColorScheme a = redScheme ∨ getColorScheme a = slateScheme) := by
  refine ⟨by decide, by decide, by decide, by decide, by decide, by decide,
    by decide, by decide, ?_, ?_⟩
  · intro a ha
    simp only [List.mem_cons, List.not_mem_nil, or_false] at ha
    push_neg at ha
    obtain ⟨h1, h2, h3, h4, h5, h6, h7, h8⟩ := ha
    simp [getColorScheme, h1, h2, h3, h4, h5, h6, h7, h8]
  · intro a
    unfold getColorScheme
    split
    · exact Or.inl rfl
    · split
      · exact Or.inr (Or.inl rfl)
      · split
        · exact Or.inr (Or.inr (Or.inl rfl))
        · exact Or.inr (Or.inr (Or.inr rfl))

/-- C9 witness: an identifier outside the table gets the slate default. -/
theorem c9_witness : getColorScheme "shell" = slateScheme :=
  c9_color_scheme_total.2.2.2.2.2.2.2.2.1 "shell" (by decide)

/-- C10: for every rank at least 1, the performance-bar width lies in
`[5, 100]`, rank 1 gives exactly 100, and every rank at least 8 gives
exactly 5. -/
theorem c10_perf_bar_width (rnk : ℤ) (h : 1 ≤ rnk) :
    (5 ≤ perfBarWidth rnk ∧ perfBarWidth rnk ≤ 100) ∧
    perfBarWidth 1 = 100 ∧
    (8 ≤ rnk → perfBarWidth rnk = 5) := by
  refine ⟨⟨le_max_left _ _, ?_⟩, ?_, fun h8 => ?_⟩
  · exact max_le (by norm_num) (by nlinarith)
  · norm_num [perfBarWidth]
  · exact max_eq_left (by nlinarith)

/-- C10 witness: rank 9 lies beyond the taper and gets the 5% floor. -/
theorem c10_witness : perfBarWidth 9 = 5 :=
  (c10_perf_bar_width 9 (by norm_num)).2.2 (by norm_num)

end SortVision
